import Mathlib

/-!
Verification of the ClipCatch video download/trim application (src/app.py)
against its specification. The source is shallowly embedded: pure decision
logic becomes Lean functions over Rat and String, and the interactions with
the two external libraries (video extraction, media editing) become explicit
environment parameters and event traces.
-/

namespace ClipCatch

/-! ## Quality-preference mapping (src/app.py lines 12-17) -/

/-- Format selector chosen for the Highest Resolution option. -/
def bestCombinedSelector : String := "bestvideo[ext=mp4]+bestaudio[ext=m4a]/best[ext=mp4]"

/-- Format selector chosen for the Lowest Resolution option. -/
def worstCombinedSelector : String := "worstvideo[ext=mp4]+worstaudio[ext=m4a]/worst[ext=mp4]"

/-- Format selector chosen for Best Available and any other option value. -/
def bestSingleSelector : String := "best[ext=mp4]"

/-- Embedding of the if/elif/else chain selecting a format string from the
quality option (src/app.py lines 12-17). -/
def formatSelector (quality_option : String) : String :=
  if quality_option = "Highest Resolution" then bestCombinedSelector
  else if quality_option = "Lowest Resolution" then worstCombinedSelector
  else bestSingleSelector

/-! ## Substring matching and downloaded-file lookup (src/app.py lines 52-54) -/

/-- Whether the needle list is an initial segment of the hay list
(character-level model of the start of a Python substring test). -/
def listStarts : List Char → List Char → Bool
  | _, [] => true
  | [], _ :: _ => false
  | a :: hay, b :: needle => a = b && listStarts hay needle

/-- Whether the needle occurs contiguously anywhere in the hay
(character-level model of the Python `in` substring test). -/
def listHasSub : List Char → List Char → Bool
  | [], needle => needle.isEmpty
  | a :: hay, needle => listStarts (a :: hay) needle || listHasSub hay needle

/-- Python substring test: `needle in hay` on strings. -/
def strIn (needle hay : String) : Bool := listHasSub hay.toList needle.toList

/-- Embedding of the loop `for file in os.listdir(output_path): if video_title
in file: return ...` (src/app.py lines 52-54): first listing entry whose name
contains the title as a substring. -/
def findByTitle (title : String) : List String → Option String
  | [] => none
  | f :: rest => if strIn title f then some f else findByTitle title rest

/-- Model of os.path.join for a directory and a relative entry name. -/
def pathJoin (d f : String) : String := d ++ "/" ++ f

/-! ## Progress hook (src/app.py lines 63-72) -/

/-- The dictionary the extraction library passes to the progress hook; only
the keys the hook reads are modelled. Byte counts are rationals since the
hook divides them. -/
structure ProgressDict where
  status : String
  downloaded_bytes : Option ℚ
  total_bytes : Option ℚ
  total_bytes_estimate : Option ℚ

/-- The value bound to `downloaded` in the hook:
d.get downloaded_bytes with default 0 (src/app.py line 68). -/
def downloadedOf (d : ProgressDict) : ℚ := d.downloaded_bytes.getD 0

/-- The value bound to `total` in the hook: the Python expression
d.get total_bytes or-else d.get total_bytes_estimate with default 0 — a missing or
falsy (zero) total_bytes falls through to the estimate, defaulted to 0
(src/app.py line 69). -/
def totalOf (d : ProgressDict) : ℚ :=
  match d.total_bytes with
  | some t => if t = 0 then d.total_bytes_estimate.getD 0 else t
  | none => d.total_bytes_estimate.getD 0

/-- Embedding of download_progress (src/app.py lines 63-72): returns the
fraction forwarded to st.progress when one is emitted, none otherwise. -/
def download_progress (d : ProgressDict) : Option ℚ :=
  if d.status = "downloading" then
    if 0 < totalOf d then some (downloadedOf d / totalOf d * 100 / 100)
    else none
  else none

/-! ## Trimmer (src/app.py lines 74-95) and its call site (lines 178-186) -/

/-- Externally observable steps taken by trim_video. openClip, writeFile and
closeClip are calls into the media-editing library; showError is UI output. -/
inductive TrimEvent where
  | openClip (path : String)
  | showError (msg : String)
  | writeFile (path : String)
  | closeClip
deriving DecidableEq, Repr

/-- What the environment does when VideoFileClip(input_path) is evaluated:
either the library raises, or it yields a clip with the given duration in
seconds. -/
inductive ClipOpen where
  | raises (msg : String)
  | clip (duration : ℚ)

/-- The range-validation test of trim_video, in source order:
`start_time < 0 or end_time > video.duration or start_time >= end_time`
(src/app.py line 81). -/
def invalidRange (start_time end_time duration : ℚ) : Bool :=
  decide (start_time < 0) || decide (end_time > duration) ||
    decide (start_time ≥ end_time)

/-- A file produced by the trim, with its duration in seconds. -/
structure WrittenFile where
  path : String
  duration : ℚ
deriving DecidableEq, Repr

/-- Outcome of a call to trim_video: the returned value (the output path or
the sentinel None), the output file written if any, and the event trace. -/
structure TrimOutcome where
  result : Option String
  written : Option WrittenFile
  events : List TrimEvent
deriving DecidableEq, Repr

/-- Modelled from the spec: the media-editing library (moviepy, not part of
src/) performs a sub-range extraction of the source media, and the produced
clip duration equals end minus start within encoding tolerance. The subclip
written for the range [start_time, end_time] therefore has duration
end_time − start_time. -/
def subclipDuration (start_time end_time : ℚ) : ℚ := end_time - start_time

/-- Embedding of trim_video (src/app.py lines 74-95). The environment decides
what opening the source clip does; on success the clip durations and writes
follow the source line by line. -/
def trim_video (input_path : String) (start_time end_time : ℚ)
    (output_path : String) (env : ClipOpen) : TrimOutcome :=
  match env with
  | .raises msg =>
      { result := none, written := none,
        events := [.showError ("Error trimming video: " ++ msg)] }
  | .clip d =>
      if invalidRange start_time end_time d then
        { result := none, written := none,
          events := [.openClip input_path,
                     .showError "Invalid trim times. Please check and retry.",
                     .closeClip] }
      else
        { result := some output_path,
          written := some { path := output_path,
                            duration := subclipDuration start_time end_time },
          events := [.openClip input_path, .writeFile output_path,
                     .closeClip, .closeClip] }

/-- Fixed downloads directory (src/app.py lines 107, 154, 165, 182). -/
def downloadsDir : String := "/app/data/downloads"

/-- Fixed trimmed-outputs directory (src/app.py lines 108, 185). -/
def trimmedDir : String := "/app/data/trimmed_videos"

/-- Conversion applied by the UI to both time inputs before calling
trim_video: the widgets are labelled minutes and the values are multiplied
by 60 (src/app.py lines 183-184). -/
def minutesToSeconds (m : ℚ) : ℚ := m * 60

/-- Embedding of the Trim Video button handler (src/app.py lines 178-186):
builds the output name trimmed_ ++ selected, converts both widget values from
minutes to seconds, and calls trim_video. -/
def mainTrim (selected_video : String) (start_time end_time : ℚ)
    (env : ClipOpen) : TrimOutcome :=
  trim_video (pathJoin downloadsDir selected_video)
    (minutesToSeconds start_time) (minutesToSeconds end_time)
    (pathJoin trimmedDir ("trimmed_" ++ selected_video)) env

/-- Upper bound of the end-time widget: max_value is set to the source clip
duration in seconds, read via VideoFileClip (src/app.py lines 166-173). -/
def endTimeMax (duration : ℚ) : ℚ := duration

/-- Default value of the end-time widget: value is also set to the source
clip duration in seconds (src/app.py line 174). -/
def endTimeDefault (duration : ℚ) : ℚ := duration

/-- Minimum of the start-time widget: min_value=0.0 (src/app.py line 163). -/
def startTimeMin : ℚ := 0

/-- Default value of the start-time widget: value=0.0 (src/app.py line 163). -/
def startTimeDefault : ℚ := 0

/-! ## Fetcher (src/app.py lines 6-61) -/

/-- The metadata object returned by extract_info; only the title key is read
(src/app.py line 49), and it may be absent. -/
structure VideoInfo where
  title : Option String

/-- Default title used when the metadata has no title key:
info_dict.get title with default downloaded_video (src/app.py line 49). -/
def defaultTitle : String := "downloaded_video"

/-- What the environment does for the whole extract_info call: the library
raises an exception, or returns its metadata object (possibly Python None). -/
inductive ExtractResult where
  | raises (msg : String)
  | returns (info : Option VideoInfo)

/-- Outcome of download_youtube_video: returned path or sentinel None, error
messages shown, and how many times extract_info was invoked. -/
structure DownloadOutcome where
  result : Option String
  errors : List String
  extractCalls : ℕ
deriving DecidableEq, Repr

/-- Embedding of download_youtube_video (src/app.py lines 6-61). The quality
option only selects the format string; the environment gives the extraction
result and the directory listing observed after the download. -/
def download_youtube_video (output_path : String) (env : ExtractResult)
    (listing : List String) : DownloadOutcome :=
  match env with
  | .raises msg =>
      { result := none,
        errors := ["Unexpected error downloading video: " ++ msg],
        extractCalls := 1 }
  | .returns none =>
      { result := none,
        errors := ["Could not extract video information."],
        extractCalls := 1 }
  | .returns (some info) =>
      let video_title := info.title.getD defaultTitle
      match findByTitle video_title listing with
      | some f =>
          { result := some (pathJoin output_path f), errors := [],
            extractCalls := 1 }
      | none =>
          { result := none, errors := ["Video download failed."],
            extractCalls := 1 }

/-! ## Helper lemmas -/

/-- The range-validation test succeeds exactly on the three bad cases. -/
lemma invalidRange_true_iff (s e d : ℚ) :
    invalidRange s e d = true ↔ (s < 0 ∨ e > d ∨ s ≥ e) := by
  simp [invalidRange]
  tauto

/-- The range-validation test fails exactly on valid ranges. -/
lemma invalidRange_false_iff (s e d : ℚ) :
    invalidRange s e d = false ↔ (0 ≤ s ∧ e ≤ d ∧ s < e) := by
  simp [invalidRange, not_lt, not_le]
  tauto

/-! ## Claims -/

/-- C6: the quality-preference mapping is a pure total function: Highest
Resolution maps to the best combined video+audio selector, Lowest Resolution
to the worst combined selector, Best Available to the best single-container
selector, and every unrecognized value also maps to the best
single-container selector. -/
theorem quality_mapping_pure_total :
    formatSelector "Highest Resolution" = bestCombinedSelector ∧
    formatSelector "Lowest Resolution" = worstCombinedSelector ∧
    formatSelector "Best Available" = bestSingleSelector ∧
    ∀ q : String, q ≠ "Highest Resolution" → q ≠ "Lowest Resolution" →
      formatSelector q = bestSingleSelector := by
  refine ⟨rfl, rfl, rfl, ?_⟩
  intro q h1 h2
  unfold formatSelector
  rw [if_neg h1, if_neg h2]

/-- Witness for C6 at the concrete unrecognized value 720p. -/
theorem quality_mapping_pure_total_witness :
    formatSelector "720p" = bestSingleSelector :=
  quality_mapping_pure_total.2.2.2 "720p" (by decide) (by decide)

/-- C1: for every trim request whose range is invalid (start at least end,
negative start, or end beyond the source duration), trim_video returns the
sentinel no-file result and the trace contains no write of an output file. -/
theorem trim_invalid_range_rejected (input_path output_path : String)
    (s e d : ℚ) (h : s ≥ e ∨ s < 0 ∨ e > d) :
    (trim_video input_path s e output_path (.clip d)).result = none ∧
    (trim_video input_path s e output_path (.clip d)).written = none ∧
    ∀ p, TrimEvent.writeFile p ∉
      (trim_video input_path s e output_path (.clip d)).events := by
  have hv : invalidRange s e d = true := by
    rw [invalidRange_true_iff]; tauto
  simp [trim_video, hv]

/-- Witness for C1 at the concrete inverted range start 5, end 2 on a
10-second source. -/
theorem trim_invalid_range_rejected_witness :
    ((5 : ℚ) ≥ 2 ∨ (5 : ℚ) < 0 ∨ (2 : ℚ) > 10) ∧
    (trim_video "v.mp4" 5 2 "out.mp4" (.clip 10)).result = none :=
  ⟨Or.inl (by norm_num),
   (trim_invalid_range_rejected "v.mp4" "out.mp4" 5 2 10
      (Or.inl (by norm_num))).1⟩

/-- C3: for every source of duration d greater than 0 seconds, triggering the
trim with the default widget values passes end = 60 * d seconds to
trim_video (the duration in seconds sits in a minutes field and is
multiplied by 60), which exceeds d, so the default trim always fails
validation and writes no file. -/
theorem default_trim_always_fails (selected_video : String) (d : ℚ)
    (hd : 0 < d) :
    minutesToSeconds (endTimeDefault d) = 60 * d ∧
    d < 60 * d ∧
    (mainTrim selected_video startTimeDefault (endTimeDefault d)
        (.clip d)).result = none ∧
    (mainTrim selected_video startTimeDefault (endTimeDefault d)
        (.clip d)).written = none ∧
    ∀ p, TrimEvent.writeFile p ∉
      (mainTrim selected_video startTimeDefault (endTimeDefault d)
        (.clip d)).events := by
  have hconv : minutesToSeconds (endTimeDefault d) = 60 * d := by
    simp [minutesToSeconds, endTimeDefault, mul_comm]
  have hgt : d < 60 * d := by linarith
  have hv : invalidRange (minutesToSeconds startTimeDefault)
      (minutesToSeconds (endTimeDefault d)) d = true := by
    rw [invalidRange_true_iff]
    right; left
    rw [hconv]
    exact hgt
  refine ⟨hconv, hgt, ?_⟩
  simp [mainTrim, trim_video, hv]

/-- Witness for C3 at a concrete source of 600 seconds (a 10-minute video). -/
theorem default_trim_always_fails_witness :
    (0 : ℚ) < 600 ∧
    (mainTrim "v.mp4" startTimeDefault (endTimeDefault 600)
        (.clip 600)).result = none :=
  ⟨by norm_num,
   (default_trim_always_fails "v.mp4" 600 (by norm_num)).2.2.1⟩

/-- C4 counterexample: at the concrete bad range start 300, end 120 on a
600-second source, the trace of trim_video is not free of external-library
operations — its first event is already an external open of the source clip,
performed to read the duration before the range validation runs. -/
theorem trim_bad_range_external_call_first :
    (trim_video (pathJoin downloadsDir "v.mp4") 300 120
        (pathJoin trimmedDir "trimmed_v.mp4") (.clip 600)).events.head? =
      some (.openClip (pathJoin downloadsDir "v.mp4")) ∧
    TrimEvent.openClip (pathJoin downloadsDir "v.mp4") ∈
      (trim_video (pathJoin downloadsDir "v.mp4") 300 120
        (pathJoin trimmedDir "trimmed_v.mp4") (.clip 600)).events := by
  have hv : invalidRange 300 120 600 = true := by
    rw [invalidRange_true_iff]
    right; right
    norm_num
  constructor
  · simp [trim_video, hv]
  · simp [trim_video, hv]

/-- C4 amended: a bad trim range is rejected before the cut, but after one
external call: the trace is exactly open the source, show the error, close
the source — so no subclip or write operation runs, no output file is
written, and the sentinel no-file result is returned. -/
theorem trim_bad_range_rejected_before_cut (input_path output_path : String)
    (s e d : ℚ) (h : s ≥ e ∨ s < 0 ∨ e > d) :
    (trim_video input_path s e output_path (.clip d)).events =
      [.openClip input_path,
       .showError "Invalid trim times. Please check and retry.",
       .closeClip] ∧
    (trim_video input_path s e output_path (.clip d)).result = none ∧
    (trim_video input_path s e output_path (.clip d)).written = none := by
  have hv : invalidRange s e d = true := by
    rw [invalidRange_true_iff]; tauto
  simp [trim_video, hv]

/-- Witness for the amended C4 at the concrete bad range start 300, end 120
on a 600-second source. -/
theorem trim_bad_range_rejected_before_cut_witness :
    ((300 : ℚ) ≥ 120 ∨ (300 : ℚ) < 0 ∨ (120 : ℚ) > 600) ∧
    (trim_video "in.mp4" 300 120 "out.mp4" (.clip 600)).events =
      [.openClip "in.mp4",
       .showError "Invalid trim times. Please check and retry.",
       .closeClip] :=
  ⟨Or.inl (by norm_num),
   (trim_bad_range_rejected_before_cut "in.mp4" "out.mp4" 300 120 600
      (Or.inl (by norm_num))).1⟩

/-- C7: for every valid trim range (0 ≤ start < end ≤ duration), trim_video
writes an output file whose duration equals end − start, at the path
trimmed_ ++ sourceFileName inside the trimmed-outputs directory, and returns
that path. -/
theorem trim_valid_range_writes_clip (selected_video : String)
    (s e d : ℚ) (h0 : 0 ≤ s) (h1 : s < e) (h2 : e ≤ d) :
    (trim_video (pathJoin downloadsDir selected_video) s e
        (pathJoin trimmedDir ("trimmed_" ++ selected_video))
        (.clip d)).written =
      some { path := pathJoin trimmedDir ("trimmed_" ++ selected_video),
             duration := e - s } ∧
    (trim_video (pathJoin downloadsDir selected_video) s e
        (pathJoin trimmedDir ("trimmed_" ++ selected_video))
        (.clip d)).result =
      some (pathJoin trimmedDir ("trimmed_" ++ selected_video)) := by
  have hv : invalidRange s e d = false := by
    rw [invalidRange_false_iff]
    exact ⟨h0, h2, h1⟩
  simp [trim_video, hv, subclipDuration]

/-- Witness for C7: trimming a 600-second source from second 120 to second
300 yields a 180-second clip named trimmed_v.mp4 in the trimmed directory. -/
theorem trim_valid_range_writes_clip_witness :
    ((0 : ℚ) ≤ 120 ∧ (120 : ℚ) < 300 ∧ (300 : ℚ) ≤ 600) ∧
    (trim_video (pathJoin downloadsDir "v.mp4") 120 300
        (pathJoin trimmedDir "trimmed_v.mp4") (.clip 600)).written =
      some { path := pathJoin trimmedDir "trimmed_v.mp4",
             duration := 180 } := by
  refine ⟨by norm_num, ?_⟩
  have h := (trim_valid_range_writes_clip "v.mp4" 120 300 600 (by norm_num)
    (by norm_num) (by norm_num)).1
  norm_num at h
  exact h

/-- C10: every trim invocation reachable from the UI has a nonnegative start
(the widget enforces min 0 and the value is multiplied by 60), so the
start-negative disjunct of the validation test never fires: the test is
equivalent to the test without that disjunct. -/
theorem start_negative_branch_unreachable (m : ℚ)
    (hm : startTimeMin ≤ m) :
    ¬ (minutesToSeconds m < 0) ∧
    ∀ e d : ℚ, invalidRange (minutesToSeconds m) e d =
      (decide (e > d) || decide (minutesToSeconds m ≥ e)) := by
  have hpos : 0 ≤ minutesToSeconds m := by
    simp only [startTimeMin] at hm
    simp only [minutesToSeconds]
    positivity
  refine ⟨not_lt.mpr hpos, ?_⟩
  intro e d
  simp [invalidRange, not_lt.mpr hpos]

/-- Witness for C10 at the concrete UI start value 2 minutes. -/
theorem start_negative_branch_unreachable_witness :
    startTimeMin ≤ (2 : ℚ) ∧ ¬ (minutesToSeconds 2 < 0) :=
  ⟨by norm_num [startTimeMin],
   (start_negative_branch_unreachable 2 (by norm_num [startTimeMin])).1⟩

/-- C2 (showing the units slip): for a 10-minute source (600 seconds), the
end-time widget bound and default both equal 600 — the duration in seconds
placed in a minutes-labelled field, interpreted downstream as 36000 seconds
— not 10, the duration in minutes the scenario expects the field to show. -/
theorem end_time_widget_units_mismatch :
    endTimeMax 600 = 600 ∧ endTimeDefault 600 = 600 ∧
    minutesToSeconds (endTimeMax 600) = 36000 ∧ endTimeMax 600 ≠ 10 := by
  norm_num [endTimeMax, endTimeDefault, minutesToSeconds]

/-- Multiplying the percentage back down by 100 recovers the raw ratio. -/
lemma hundred_cancel (x : ℚ) : x * 100 / 100 = x := by
  rw [mul_div_assoc]
  norm_num

/-- Any emitted progress value equals the ratio of downloaded over total. -/
lemma download_progress_some (d : ProgressDict) (p : ℚ)
    (h : download_progress d = some p) :
    0 < totalOf d ∧ p = downloadedOf d / totalOf d := by
  unfold download_progress at h
  by_cases hs : d.status = "downloading"
  · rw [if_pos hs] at h
    by_cases ht : 0 < totalOf d
    · rw [if_pos ht] at h
      injection h with h
      rw [← h, hundred_cancel]
      exact ⟨ht, rfl⟩
    · rw [if_neg ht] at h
      exact absurd h (by simp)
  · rw [if_neg hs] at h
    exact absurd h (by simp)

/-- C5: progress fractions emitted by download_progress are bounded to [0,1]
whenever the reported byte counts satisfy the library contract (nonnegative
cumulative bytes, at most the total); within one download (fixed known
total, non-decreasing cumulative bytes) the emitted fractions are
monotonically non-decreasing; and when no total size is known, no fraction
is computed at all. -/
theorem progress_fraction_spec :
    (∀ d p, download_progress d = some p → 0 ≤ downloadedOf d →
        downloadedOf d ≤ totalOf d → 0 ≤ p ∧ p ≤ 1) ∧
    (∀ d₁ d₂ p₁ p₂, download_progress d₁ = some p₁ →
        download_progress d₂ = some p₂ → totalOf d₁ = totalOf d₂ →
        downloadedOf d₁ ≤ downloadedOf d₂ → p₁ ≤ p₂) ∧
    (∀ d, d.total_bytes = none → d.total_bytes_estimate = none →
        download_progress d = none) := by
  refine ⟨?_, ?_, ?_⟩
  · intro d p h h0 hle
    obtain ⟨ht, hp⟩ := download_progress_some d p h
    subst hp
    exact ⟨div_nonneg h0 (le_of_lt ht), (div_le_one ht).mpr hle⟩
  · intro d₁ d₂ p₁ p₂ h₁ h₂ htot hdl
    obtain ⟨ht₁, hp₁⟩ := download_progress_some d₁ p₁ h₁
    obtain ⟨ht₂, hp₂⟩ := download_progress_some d₂ p₂ h₂
    subst hp₁
    subst hp₂
    rw [htot]
    exact (div_le_div_iff_of_pos_right ht₂).mpr hdl
  · intro d h1 h2
    have ht : totalOf d = 0 := by simp [totalOf, h1, h2]
    simp [download_progress, ht]

/-- Witness for C5 at a concrete hook call: 50 of 200 bytes downloaded gives
the in-range fraction one quarter. -/
theorem progress_fraction_spec_witness :
    download_progress
      { status := "downloading", downloaded_bytes := some 50,
        total_bytes := some 200, total_bytes_estimate := none } =
      some (1 / 4) ∧
    (0 : ℚ) ≤ 1 / 4 ∧ (1 / 4 : ℚ) ≤ 1 := by
  have he : download_progress
      { status := "downloading", downloaded_bytes := some 50,
        total_bytes := some 200, total_bytes_estimate := none } =
      some (1 / 4) := by
    norm_num [download_progress, totalOf, downloadedOf]
  refine ⟨he, progress_fraction_spec.1
    { status := "downloading", downloaded_bytes := some 50,
      total_bytes := some 200, total_bytes_estimate := none }
    (1 / 4) he (by norm_num [downloadedOf])
    (by norm_num [downloadedOf, totalOf])⟩

/-- C8: after a download the saved path is recovered by substring-matching
the title against the directory listing: whenever the lookup returns a file,
that file is the first listing entry containing the title as a substring
(everything before it does not contain the title); concretely this returns
an unrelated pre-existing file sharing the title fragment, and returns no
file when the saved name was sanitized away from the title. -/
theorem file_lookup_by_substring :
    (∀ (title : String) (l : List String) (f : String),
        findByTitle title l = some f →
        f ∈ l ∧ strIn title f = true ∧
        ∃ l₁ l₂, l = l₁ ++ f :: l₂ ∧ ∀ g ∈ l₁, strIn title g = false) ∧
    findByTitle "video" ["old_video_backup.mp4", "video.mp4"] =
      some "old_video_backup.mp4" ∧
    findByTitle "My Video: part 1" ["My Video - part 1.mp4"] = none := by
  refine ⟨?_, by decide, by decide⟩
  intro title l
  induction l with
  | nil => intro f h; simp [findByTitle] at h
  | cons a rest ih =>
    intro f h
    rw [findByTitle] at h
    by_cases ha : strIn title a = true
    · rw [if_pos ha] at h
      injection h with h
      subst h
      exact ⟨List.mem_cons_self _ _, ha, [], rest, rfl, by simp⟩
    · rw [if_neg ha] at h
      obtain ⟨hmem, hf, l₁, l₂, heq, hall⟩ := ih f h
      refine ⟨List.mem_cons_of_mem a hmem, hf, a :: l₁, l₂, by simp [heq], ?_⟩
      intro g hg
      rcases List.mem_cons.mp hg with hga | hgl
      · rw [hga]
        exact Bool.not_eq_true _ ▸ Bool.of_not_eq_true ha
      · exact hall g hgl

/-- Witness for C8: the lookup for title video over a listing holding a
stale file first returns the stale pre-existing file. -/
theorem file_lookup_by_substring_witness :
    "old_video_backup.mp4" ∈ ["old_video_backup.mp4", "video.mp4"] ∧
    strIn "video" "old_video_backup.mp4" = true :=
  ⟨(file_lookup_by_substring.1 "video" ["old_video_backup.mp4", "video.mp4"]
      "old_video_backup.mp4" (by decide)).1,
   (file_lookup_by_substring.1 "video" ["old_video_backup.mp4", "video.mp4"]
      "old_video_backup.mp4" (by decide)).2.1⟩

/-- C9: every fetch failure — the library raising, extraction returning no
metadata, or the saved file not found by the title match — produces exactly
one user-facing error message, returns the sentinel no-file result, and
invokes the extraction exactly once (no retry). -/
theorem fetch_failure_reports_and_no_retry :
    (∀ (out msg : String) (listing : List String),
        download_youtube_video out (.raises msg) listing =
        { result := none,
          errors := ["Unexpected error downloading video: " ++ msg],
          extractCalls := 1 }) ∧
    (∀ (out : String) (listing : List String),
        download_youtube_video out (.returns none) listing =
        { result := none,
          errors := ["Could not extract video information."],
          extractCalls := 1 }) ∧
    (∀ (out : String) (info : VideoInfo) (listing : List String),
        findByTitle (info.title.getD defaultTitle) listing = none →
        download_youtube_video out (.returns (some info)) listing =
        { result := none, errors := ["Video download failed."],
          extractCalls := 1 }) := by
  refine ⟨fun out msg listing => rfl, fun out listing => rfl, ?_⟩
  intro out info listing h
  simp [download_youtube_video, h]

/-- Witness for C9: a download whose saved file cannot be matched by title
reports the failure, returns no file, and made a single extraction call. -/
theorem fetch_failure_reports_and_no_retry_witness :
    findByTitle "My Video" ["unrelated.mp4"] = none ∧
    download_youtube_video "/app/data/downloads"
      (.returns (some { title := some "My Video" })) ["unrelated.mp4"] =
      { result := none, errors := ["Video download failed."],
        extractCalls := 1 } :=
  ⟨by decide,
   fetch_failure_reports_and_no_retry.2.2 "/app/data/downloads"
     { title := some "My Video" } ["unrelated.mp4"] (by decide)⟩

end ClipCatch
